import Mathlib

/-! # Home-automation control panel (`main.cpp`)

A shallow embedding of the classes of `main.cpp` and theorems about them.

* C++ `int` is a 32-bit two's-complement integer.  Values are carried in `Int`
  and every `+`, `-` and `++` of the source goes through `wrap32`, which reduces
  the mathematical result modulo `2^32` into `[-2^31, 2^31)`.
* Objects made with `new` live in a free store (`Heap`); a pointer is an
  `Option Nat` (`none` is `nullptr`, `some k` is the `k`-th object of its type).
* `std::map` is an association list with the two operations the source uses:
  `insert` (which keeps an existing entry) and `operator[]` (which adds a
  default entry for a missing key).
-/

namespace ControlPanelSim

/-! ## Machine integers -/

/-- Reduction of a mathematical integer to the 32-bit two's-complement `int`
that represents it (arithmetic modulo `2^32`). -/
def wrap32 (x : Int) : Int := (x + 2147483648) % 4294967296 - 2147483648

/-- The value is representable as a C++ `int`. -/
def isInt32 (x : Int) : Prop := -2147483648 ≤ x ∧ x ≤ 2147483647

instance (x : Int) : Decidable (isInt32 x) := by
  unfold isInt32; infer_instance

/-! ## Receivers: `Device` and `Light` -/

/-- The source's `enum State { off = 0, on = 1 }`. -/
inductive State where
  | off
  | on
  deriving DecidableEq, Repr

/-- The source's `class Device`: `int id; State currentState = off;`. -/
structure Device where
  id : Int
  currentState : State := State.off
  deriving DecidableEq, Repr

namespace Device

/-- `State toggle()`: flips `currentState` and returns the new value, paired
here with the updated object. -/
def toggle (d : Device) : State × Device :=
  if d.currentState = State.off then
    (State.on, { d with currentState := State.on })
  else
    (State.off, { d with currentState := State.off })

/-- `State getCurrentState()`. -/
def getCurrentState (d : Device) : State := d.currentState

/-- `int getId()`. -/
def getId (d : Device) : Int := d.id

end Device

/-- The source's `class Light : public Device`. -/
structure Light extends Device where
  color : String
  maxIntensity : Int
  minIntensity : Int
  currentIntensity : Int
  deriving DecidableEq, Repr

namespace Light

/-- The constructor `Light(int _id, string _color)`: it assigns `id`, the two
bounds and the intensity; `color` is left default-constructed (the argument is
not stored) and `currentState` keeps its member initialiser `off`. -/
def new (_id : Int) (_color : String) : Light :=
  { id := _id, currentState := State.off, color := "",
    maxIntensity := 100, minIntensity := 0, currentIntensity := 0 }

/-- The inherited `toggle()` on a `Light`: only the `Device` part changes. -/
def toggle (l : Light) : State × Light :=
  ((l.toDevice.toggle).1, { l with toDevice := (l.toDevice.toggle).2 })

/-- The inherited `getCurrentState()`. -/
def getCurrentState (l : Light) : State := l.toDevice.getCurrentState

/-- The inherited `getId()`. -/
def getId (l : Light) : Int := l.toDevice.getId

/-- `int getCurrentIntensity()`. -/
def getCurrentIntensity (l : Light) : Int := l.currentIntensity

/-- `bool increaseIntensity(int amount)`. -/
def increaseIntensity (l : Light) (amount : Int) : Bool × Light :=
  let l1 : Light :=
    if wrap32 (l.currentIntensity + amount) < l.maxIntensity then
      { l with currentIntensity := wrap32 (l.currentIntensity + amount) }
    else
      { l with currentIntensity := l.maxIntensity }
  let l2 : Light :=
    if l1.getCurrentState = State.off then (l1.toggle).2 else l1
  (true, l2)

/-- `bool decreaseIntensity(int amount)`. -/
def decreaseIntensity (l : Light) (amount : Int) : Bool × Light :=
  let l1 : Light :=
    if wrap32 (l.currentIntensity - amount) > l.minIntensity then
      { l with currentIntensity := wrap32 (l.currentIntensity - amount) }
    else
      { l with currentIntensity := l.minIntensity }
  let l2 : Light :=
    if l1.currentIntensity = l1.minIntensity ∧ l1.getCurrentState = State.on then
      (l1.toggle).2
    else l1
  (true, l2)

end Light

/-! ## Free store -/

/-- A C++ pointer: `none` is `nullptr`, `some k` is the address of the `k`-th
object of the pointee type created with `new`. -/
abbrev Ptr := Option Nat

/-- The three implementations of the abstract `class Command`.  The device
pointer of `toggleCommand` is a `Device*`; every device this program creates is
a `Light`, so it addresses the store of lights like the `Light*` of the other
two. -/
inductive Command where
  | toggleCommand (d : Ptr)
  | increaseCommand (d : Ptr) (amount : Int)
  | decreaseCommand (d : Ptr) (amount : Int)
  deriving DecidableEq, Repr

/-- The source's `class Button` (the invoker): `Command* onPress`. -/
structure Button where
  onPress : Ptr
  deriving DecidableEq, Repr

/-- The objects created with `new`, by type, in order of creation. -/
structure Heap where
  lights : List Light := []
  commands : List Command := []
  buttons : List Button := []
  deriving DecidableEq, Repr

namespace Heap

/-- Dereference of a `Light*` (or of a `Device*`); `none` when the pointer is
null or addresses no object. -/
def light (h : Heap) (p : Ptr) : Option Light := p.bind fun k => h.lights[k]?

/-- Dereference of a `Command*`. -/
def command (h : Heap) (p : Ptr) : Option Command := p.bind fun k => h.commands[k]?

/-- Dereference of a `Button*`. -/
def button (h : Heap) (p : Ptr) : Option Button := p.bind fun k => h.buttons[k]?

/-- Write back the object a `Light*` points to. -/
def setLight (h : Heap) (k : Nat) (l : Light) : Heap :=
  { h with lights := h.lights.set k l }

/-- The expression `new Light(...)`: the new object and its address. -/
def newLight (h : Heap) (l : Light) : Ptr × Heap :=
  (some h.lights.length, { h with lights := h.lights ++ [l] })

/-- The expression `new toggleCommand(...)` and its two siblings. -/
def newCommand (h : Heap) (c : Command) : Ptr × Heap :=
  (some h.commands.length, { h with commands := h.commands ++ [c] })

/-- The expression `new Button(...)`. -/
def newButton (h : Heap) (b : Button) : Ptr × Heap :=
  (some h.buttons.length, { h with buttons := h.buttons ++ [b] })

end Heap

/-! ## Commands and the invoker -/

namespace Command

/-- The virtual `bool execute() const` of the three commands.  The result is
`none` when `d` cannot be dereferenced (the source has no check there). -/
def execute (c : Command) (h : Heap) : Option (Bool × Heap) :=
  match c with
  | toggleCommand d =>
    match d, h.light d with
    | some k, some l => some (true, h.setLight k (l.toggle).2)
    | _, _ => none
  | increaseCommand d amount =>
    match d, h.light d with
    | some k, some l => some (true, h.setLight k (l.increaseIntensity amount).2)
    | _, _ => none
  | decreaseCommand d amount =>
    match d, h.light d with
    | some k, some l => some (true, h.setLight k (l.decreaseIntensity amount).2)
    | _, _ => none

end Command

namespace Button

/-- The constructor `Button(Command* _action)`. -/
def new (_action : Ptr) : Button := { onPress := _action }

/-- `bool press()`: `return onPress->execute();`. -/
def press (b : Button) (h : Heap) : Option (Bool × Heap) :=
  match h.command b.onPress with
  | some c => c.execute h
  | none => none

end Button

/-! ## `std::map` -/

/-- A `std::map<K, V>`, as the list of its entries (at most one per key). -/
abbrev StdMap (K V : Type) := List (K × V)

namespace StdMap

variable {K V : Type} [DecidableEq K]

/-- The value stored under a key, if there is one. -/
def find? (m : StdMap K V) (k : K) : Option V :=
  match m with
  | [] => none
  | (k1, v) :: rest => if k1 = k then some v else find? rest k

/-- `m.insert(make_pair(k, v))`: adds the entry unless the key is already
present, in which case the map is left as it is. -/
def insert (m : StdMap K V) (k : K) (v : V) : StdMap K V :=
  match find? m k with
  | some _ => m
  | none => m ++ [(k, v)]

/-- `m[k]`: the value stored under `k`; a missing key is first added with the
value-initialised `dflt` (a null pointer for the maps of this program). -/
def index (m : StdMap K V) (k : K) (dflt : V) : V × StdMap K V :=
  match find? m k with
  | some v => (v, m)
  | none => (dflt, m ++ [(k, dflt)])

end StdMap

/-! ## `ControlPanel` -/

/-- The source's `class ControlPanel`. -/
structure ControlPanel where
  Layout : StdMap String Ptr := []
  Labels : List String := []
  deriving DecidableEq, Repr

namespace ControlPanel

/-- `string addButton(string label, Button* _button)`. -/
def addButton (p : ControlPanel) (label : String) (_button : Ptr) : String × ControlPanel :=
  (label, { Layout := StdMap.insert p.Layout label _button,
            Labels := p.Labels ++ [label] })

/-- `list<string> getLabels()`. -/
def getLabels (p : ControlPanel) : List String := p.Labels

/-- `Button* getButton(string label)`: `return Layout[label];`. -/
def getButton (p : ControlPanel) (label : String) : Ptr × ControlPanel :=
  ((StdMap.index p.Layout label none).1,
   { p with Layout := (StdMap.index p.Layout label none).2 })

end ControlPanel

/-! ## `ControlSystem` (the singleton) -/

/-- The source's `class ControlSystem`, together with the free store holding the
objects it creates. -/
structure ControlSystem where
  Panel : ControlPanel := {}
  deviceMap : StdMap Int Ptr := []
  nextID : Int := 0
  heap : Heap := {}
  deriving DecidableEq, Repr

namespace ControlSystem

/-- `static ControlSystem& getInstance()`: the instance as first constructed. -/
def getInstance : ControlSystem := {}

/-- `Command* newToggleCommand(Device* device)`. -/
def newToggleCommand (a : ControlSystem) (device : Ptr) : Ptr × ControlSystem :=
  ((a.heap.newCommand (Command.toggleCommand device)).1,
   { a with heap := (a.heap.newCommand (Command.toggleCommand device)).2 })

/-- `Command* newIncreaseCommand(Light* light, int amount)`. -/
def newIncreaseCommand (a : ControlSystem) (light : Ptr) (amount : Int) : Ptr × ControlSystem :=
  ((a.heap.newCommand (Command.increaseCommand light amount)).1,
   { a with heap := (a.heap.newCommand (Command.increaseCommand light amount)).2 })

/-- `Command* newDecreaseCommand(Light* light, int amount)`. -/
def newDecreaseCommand (a : ControlSystem) (light : Ptr) (amount : Int) : Ptr × ControlSystem :=
  ((a.heap.newCommand (Command.decreaseCommand light amount)).1,
   { a with heap := (a.heap.newCommand (Command.decreaseCommand light amount)).2 })

/-- `string createButton(string name, Command* command)`. -/
def createButton (a : ControlSystem) (name : String) (command : Ptr) : String × ControlSystem :=
  let nb := a.heap.newButton (Button.new command)
  let r := a.Panel.addButton name nb.1
  (r.1, { a with Panel := r.2, heap := nb.2 })

/-- `int createLight(string color)`. -/
def createLight (a : ControlSystem) (color : String) : Int × ControlSystem :=
  let currentID := a.nextID
  let nl := a.heap.newLight (Light.new currentID color)
  (currentID,
   { a with nextID := wrap32 (a.nextID + 1),
            heap := nl.2,
            deviceMap := StdMap.insert a.deviceMap currentID nl.1 })

/-- `Light* getLightDevice(int ID)`: `return (Light*)deviceMap[ID];`. -/
def getLightDevice (a : ControlSystem) (ID : Int) : Ptr × ControlSystem :=
  ((StdMap.index a.deviceMap ID none).1,
   { a with deviceMap := (StdMap.index a.deviceMap ID none).2 })

/-- `Button* getButton(string label)`. -/
def getButton (a : ControlSystem) (label : String) : Ptr × ControlSystem :=
  ((a.Panel.getButton label).1, { a with Panel := (a.Panel.getButton label).2 })

end ControlSystem

/-! ## `main` -/

/-- What `main` writes: the literal lines, and the values printed by
`printCurrentState` and `printCurrentIntensity`. -/
inductive Output where
  | text (s : String)
  | deviceState (s : State)
  | deviceIntensity (n : Int)
  deriving DecidableEq, Repr

/-- A point of the run of `main`: the singleton and what was written so far. -/
structure Run where
  a : ControlSystem
  out : List Output
  deriving DecidableEq, Repr

/-- The statement `printf(s);` for a literal line `s`. -/
def callPrintf (s : String) (r : Run) : Option Run :=
  some { r with out := r.out ++ [Output.text s] }

/-- The statement `a.getLightDevice(ID)->printCurrentState();`. -/
def callPrintCurrentState (ID : Int) (r : Run) : Option Run :=
  let g := r.a.getLightDevice ID
  match g.2.heap.light g.1 with
  | some l => some { a := g.2, out := r.out ++ [Output.deviceState l.getCurrentState] }
  | none => none

/-- The statement `a.getLightDevice(ID)->printCurrentIntensity();`. -/
def callPrintCurrentIntensity (ID : Int) (r : Run) : Option Run :=
  let g := r.a.getLightDevice ID
  match g.2.heap.light g.1 with
  | some l => some { a := g.2, out := r.out ++ [Output.deviceIntensity l.currentIntensity] }
  | none => none

/-- The call `a.getButton(label)->press()` on the registry: its result and the
registry afterwards. -/
def pressButton (a : ControlSystem) (label : String) : Option (Bool × ControlSystem) :=
  let g := a.getButton label
  match g.2.heap.button g.1 with
  | some b =>
    match b.press g.2.heap with
    | some res => some (res.1, { g.2 with heap := res.2 })
    | none => none
  | none => none

/-- The statement `a.getButton(label)->press();`. -/
def callPress (label : String) (r : Run) : Option Run :=
  match pressButton r.a label with
  | some res => some { r with a := res.2 }
  | none => none

/-- The loop `for (auto i = 0; i <= 10; ++i) a.getButton(label)->press();`,
whose body runs for `i = 0, ..., 10`. -/
def pressLoop (label : String) (r : Run) : Option Run :=
  (List.range 11).foldlM (fun s _ => callPress label s) r

/-- The five buttons `main` wires up before its scripted presses: the ids of the
two first lights, the three labels it keeps, and the registry. -/
structure Wiring where
  light1ID : Int
  light2ID : Int
  Button1ID : String
  Button4ID : String
  Button5ID : String
  a : ControlSystem
  deriving DecidableEq, Repr

/-- The declarations at the head of `main` (arguments are evaluated innermost
first). -/
def mainWiring : Wiring :=
  let a := ControlSystem.getInstance
  let l1 := a.createLight "Blue"
  let l2 := l1.2.createLight "Red"
  let d1 := l2.2.getLightDevice l1.1
  let c1 := d1.2.newToggleCommand d1.1
  let b1 := c1.2.createButton "Blue Light Toggle" c1.1
  let d2 := b1.2.getLightDevice l2.1
  let c2 := d2.2.newToggleCommand d2.1
  let b2 := c2.2.createButton "Red Light Toggle" c2.1
  let l3 := b2.2.createLight "Green"
  let d3 := l3.2.getLightDevice l3.1
  let c3 := d3.2.newToggleCommand d3.1
  let b3 := c3.2.createButton "Green Light Toggle" c3.1
  let d4 := b3.2.getLightDevice l1.1
  let c4 := d4.2.newIncreaseCommand d4.1 20
  let b4 := c4.2.createButton "Blue Light Increase Intensity by 20%" c4.1
  let d5 := b4.2.getLightDevice l1.1
  let c5 := d5.2.newDecreaseCommand d5.1 20
  let b5 := c5.2.createButton "Blue Light Decrease Intensity by 20%" c5.1
  { light1ID := l1.1, light2ID := l2.1,
    Button1ID := b1.1, Button4ID := b4.1, Button5ID := b5.1, a := b5.2 }

/-- The statements of `main` after the declarations, in order. -/
def mainScript (w : Wiring) : List (Run → Option Run) :=
  [ callPrintf "\n turning blue light on and off\n",
    callPrintCurrentState w.light1ID,
    callPrintf "\n",
    callPress w.Button1ID,
    callPrintCurrentState w.light1ID,
    callPrintf "\n",
    callPress w.Button1ID,
    callPrintCurrentState w.light1ID,
    callPrintf "\n",
    callPrintf "\n increasing light intensity\n",
    callPrintCurrentState w.light1ID,
    callPrintCurrentIntensity w.light1ID,
    callPrintf "\n",
    callPress w.Button4ID,
    callPrintCurrentState w.light1ID,
    callPrintCurrentIntensity w.light1ID,
    callPrintf "\n",
    callPress w.Button4ID,
    callPrintCurrentState w.light1ID,
    callPrintCurrentIntensity w.light1ID,
    callPrintf "\n",
    pressLoop w.Button4ID,
    callPrintCurrentState w.light1ID,
    callPrintCurrentIntensity w.light1ID,
    callPrintf "\n",
    callPrintf "\n decreasing light intensity\n",
    callPress w.Button5ID,
    callPrintCurrentState w.light1ID,
    callPrintCurrentIntensity w.light1ID,
    callPrintf "\n",
    callPress w.Button5ID,
    callPrintCurrentState w.light1ID,
    callPrintCurrentIntensity w.light1ID,
    callPrintf "\n",
    pressLoop w.Button5ID,
    callPrintCurrentState w.light1ID,
    callPrintCurrentIntensity w.light1ID,
    callPrintf "\n" ]

/-- The source's `main`: the lines it writes, or `none` if it dereferences a
pointer that addresses no object. -/
def main : Option (List Output) :=
  ((mainScript mainWiring).foldlM (fun (r : Run) (stmt : Run → Option Run) => stmt r)
    ({ a := mainWiring.a, out := [] } : Run)).map Run.out

/-! ## Call sequences -/

/-- One call of a public member function on a `Light`. -/
inductive LightCall where
  | toggle
  | increaseIntensity (amount : Int)
  | decreaseIntensity (amount : Int)
  deriving DecidableEq, Repr

namespace Light

/-- The light after one call. -/
def call (l : Light) : LightCall → Light
  | LightCall.toggle => (l.toggle).2
  | LightCall.increaseIntensity amount => (l.increaseIntensity amount).2
  | LightCall.decreaseIntensity amount => (l.decreaseIntensity amount).2

/-- The light after a sequence of calls, first call first. -/
def run (l : Light) : List LightCall → Light
  | [] => l
  | c :: cs => run (l.call c) cs

/-- Every amount of the sequence is a non-negative `int`. -/
def nonNegAmounts : List LightCall → Prop
  | [] => True
  | LightCall.toggle :: cs => nonNegAmounts cs
  | LightCall.increaseIntensity a :: cs => (0 ≤ a ∧ a ≤ 2147483647) ∧ nonNegAmounts cs
  | LightCall.decreaseIntensity a :: cs => (0 ≤ a ∧ a ≤ 2147483647) ∧ nonNegAmounts cs

/-- Every amount of the sequence is a non-negative `int`, and no sum
`currentIntensity + amount` computed along the sequence, started on `l`,
exceeds the largest `int`. -/
def noOverflow : Light → List LightCall → Prop
  | _, [] => True
  | l, LightCall.toggle :: cs => noOverflow (l.call LightCall.toggle) cs
  | l, LightCall.increaseIntensity a :: cs =>
    (0 ≤ a ∧ l.currentIntensity + a ≤ 2147483647) ∧
      noOverflow (l.call (LightCall.increaseIntensity a)) cs
  | l, LightCall.decreaseIntensity a :: cs =>
    (0 ≤ a ∧ a ≤ 2147483647) ∧ noOverflow (l.call (LightCall.decreaseIntensity a)) cs

end Light

/-- One call of a public member function of `ControlSystem`. -/
inductive Call where
  | newToggleCommand (device : Ptr)
  | newIncreaseCommand (light : Ptr) (amount : Int)
  | newDecreaseCommand (light : Ptr) (amount : Int)
  | createButton (name : String) (command : Ptr)
  | createLight (color : String)
  | getLightDevice (ID : Int)
  | getButton (label : String)
  deriving DecidableEq, Repr

/-- What a call of a `ControlSystem` member function returns. -/
inductive Returned where
  | command (p : Ptr)
  | label (s : String)
  | deviceId (n : Int)
  | light (p : Ptr)
  | button (p : Ptr)
  deriving DecidableEq, Repr

namespace Call

/-- The call is a `createLight`. -/
def isCreateLight : Call → Bool
  | createLight _ => true
  | _ => false

end Call

namespace ControlSystem

/-- The returned value and the registry after one call. -/
def call (a : ControlSystem) : Call → Returned × ControlSystem
  | Call.newToggleCommand device =>
    (Returned.command (a.newToggleCommand device).1, (a.newToggleCommand device).2)
  | Call.newIncreaseCommand light amount =>
    (Returned.command (a.newIncreaseCommand light amount).1,
     (a.newIncreaseCommand light amount).2)
  | Call.newDecreaseCommand light amount =>
    (Returned.command (a.newDecreaseCommand light amount).1,
     (a.newDecreaseCommand light amount).2)
  | Call.createButton name command =>
    (Returned.label (a.createButton name command).1, (a.createButton name command).2)
  | Call.createLight color =>
    (Returned.deviceId (a.createLight color).1, (a.createLight color).2)
  | Call.getLightDevice ID =>
    (Returned.light (a.getLightDevice ID).1, (a.getLightDevice ID).2)
  | Call.getButton label =>
    (Returned.button (a.getButton label).1, (a.getButton label).2)

/-- The returned values, in call order, and the registry after a sequence of
calls. -/
def run (a : ControlSystem) : List Call → List Returned × ControlSystem
  | [] => ([], a)
  | c :: cs => ((a.call c).1 :: (run (a.call c).2 cs).1, (run (a.call c).2 cs).2)

/-- The registry after `n` calls of `createLight` (the colours do not matter to
the registry: the constructor of `Light` drops them). -/
def createLights (a : ControlSystem) : Nat → ControlSystem
  | 0 => a
  | n + 1 => ((createLights a n).createLight "").2

end ControlSystem

/-- The device identifiers among the returned values, i.e. what the
`createLight` calls of the sequence returned, in call order. -/
def createdIds : List Returned → List Int
  | [] => []
  | Returned.deviceId n :: rs => n :: createdIds rs
  | _ :: rs => createdIds rs

/-- Three lights created on a fresh registry, with lookups and a button
creation in between. -/
def sampleCalls : List Call :=
  [Call.createLight "Blue", Call.getLightDevice 7, Call.createLight "Red",
   Call.createButton "Red Light Toggle" none, Call.getButton "Green Light Toggle",
   Call.createLight "Green"]

/-- One call of a public member function of `ControlPanel` that can change the
panel. -/
inductive PanelCall where
  | addButton (label : String) (_button : Ptr)
  | getButton (label : String)
  deriving DecidableEq, Repr

namespace ControlPanel

/-- The panel after one call. -/
def call (p : ControlPanel) : PanelCall → ControlPanel
  | PanelCall.addButton label _button => (p.addButton label _button).2
  | PanelCall.getButton label => (p.getButton label).2

/-- The panel after a sequence of calls, first call first. -/
def run (p : ControlPanel) : List PanelCall → ControlPanel
  | [] => p
  | c :: cs => run (p.call c) cs

end ControlPanel

/-- The labels of the `addButton` calls of a sequence, in call order. -/
def addedLabels : List PanelCall → List String
  | [] => []
  | PanelCall.addButton label _ :: cs => label :: addedLabels cs
  | PanelCall.getButton _ :: cs => addedLabels cs

/-- The device pointer `d` a command was constructed with. -/
def Command.target : Command → Ptr
  | Command.toggleCommand d => d
  | Command.increaseCommand d _ => d
  | Command.decreaseCommand d _ => d

/-- The call `button->press()` on the registry: its result and the registry
afterwards, or `none` if a pointer on the way addresses no object. -/
def ControlSystem.press (a : ControlSystem) (button : Ptr) : Option (Bool × ControlSystem) :=
  match a.heap.button button with
  | some b =>
    match b.press a.heap with
    | some res => some (res.1, { a with heap := res.2 })
    | none => none
  | none => none

/-- A light at full intensity: a new light after `increaseIntensity(100)`. -/
def fullLight : Light := ((Light.new 0 "Blue").increaseIntensity 100).2

/-! ## Lemmas on the receivers -/

theorem wrap32_of_isInt32 (x : Int) (h : isInt32 x) : wrap32 x = x := by
  unfold isInt32 at h
  unfold wrap32
  omega

theorem wrap32_isInt32 (x : Int) : isInt32 (wrap32 x) := by
  unfold isInt32 wrap32
  omega

namespace Light

theorem increaseIntensity_currentIntensity (l : Light) (a : Int) :
    (l.increaseIntensity a).2.currentIntensity =
      if wrap32 (l.currentIntensity + a) < l.maxIntensity then
        wrap32 (l.currentIntensity + a) else l.maxIntensity := by
  simp only [increaseIntensity, toggle]
  split_ifs <;> rfl

theorem increaseIntensity_currentState (l : Light) (a : Int) :
    (l.increaseIntensity a).2.currentState = State.on := by
  simp only [increaseIntensity, toggle, Device.toggle, getCurrentState,
    Device.getCurrentState]
  cases hs : l.currentState <;> split_ifs <;> simp_all

theorem increaseIntensity_bounds (l : Light) (a : Int) :
    (l.increaseIntensity a).2.maxIntensity = l.maxIntensity ∧
    (l.increaseIntensity a).2.minIntensity = l.minIntensity ∧
    (l.increaseIntensity a).2.id = l.id := by
  simp only [increaseIntensity, toggle, Device.toggle, getCurrentState,
    Device.getCurrentState]
  split_ifs <;> simp

theorem decreaseIntensity_currentIntensity (l : Light) (a : Int) :
    (l.decreaseIntensity a).2.currentIntensity =
      if wrap32 (l.currentIntensity - a) > l.minIntensity then
        wrap32 (l.currentIntensity - a) else l.minIntensity := by
  simp only [decreaseIntensity, toggle]
  split_ifs <;> rfl

theorem decreaseIntensity_currentState (l : Light) (a : Int) :
    (l.decreaseIntensity a).2.currentState =
      if (l.decreaseIntensity a).2.currentIntensity = l.minIntensity ∧
          l.currentState = State.on then State.off else l.currentState := by
  rw [decreaseIntensity_currentIntensity]
  simp only [decreaseIntensity, toggle, Device.toggle, getCurrentState,
    Device.getCurrentState]
  cases hs : l.currentState <;> split_ifs <;> simp_all

theorem decreaseIntensity_bounds (l : Light) (a : Int) :
    (l.decreaseIntensity a).2.maxIntensity = l.maxIntensity ∧
    (l.decreaseIntensity a).2.minIntensity = l.minIntensity ∧
    (l.decreaseIntensity a).2.id = l.id := by
  simp only [decreaseIntensity, toggle, Device.toggle, getCurrentState,
    Device.getCurrentState]
  split_ifs <;> simp

theorem toggle_fields (l : Light) :
    (l.toggle).2.currentIntensity = l.currentIntensity ∧
    (l.toggle).2.maxIntensity = l.maxIntensity ∧
    (l.toggle).2.minIntensity = l.minIntensity ∧
    (l.toggle).2.id = l.id := by
  simp only [toggle, Device.toggle]
  split_ifs <;> simp

end Light

/-! ## The scripted scenario of `main` -/

set_option maxRecDepth 100000

/-- C1: on a fresh registry the first `createLight` returns id 0, and `main`
runs to its end writing, for the light with that id: off at the start, on after
one press of its toggle button, off after a second press; then off at intensity
0, and after one press of the increase-by-20 button on at 20, after a second
press on at 40, after 11 more presses on at 100; then after one press of the
decrease-by-20 button on at 80, after a second press on at 60, and after 11 more
presses off at 0. -/
theorem main_scenario :
    (ControlSystem.getInstance.createLight "Blue").1 = 0 ∧
    mainWiring.light1ID = 0 ∧
    main = some
      [ Output.text "\n turning blue light on and off\n",
        Output.deviceState State.off, Output.text "\n",
        Output.deviceState State.on, Output.text "\n",
        Output.deviceState State.off, Output.text "\n",
        Output.text "\n increasing light intensity\n",
        Output.deviceState State.off, Output.deviceIntensity 0, Output.text "\n",
        Output.deviceState State.on, Output.deviceIntensity 20, Output.text "\n",
        Output.deviceState State.on, Output.deviceIntensity 40, Output.text "\n",
        Output.deviceState State.on, Output.deviceIntensity 100, Output.text "\n",
        Output.text "\n decreasing light intensity\n",
        Output.deviceState State.on, Output.deviceIntensity 80, Output.text "\n",
        Output.deviceState State.on, Output.deviceIntensity 60, Output.text "\n",
        Output.deviceState State.off, Output.deviceIntensity 0, Output.text "\n" ] := by
  refine ⟨by decide, by decide, by decide⟩

/-! ## Clamping of the intensity -/

/-- C2, as stated, fails: a light at intensity 100 (a new light after
`increaseIntensity(100)`) that receives `increaseIntensity(2147483647)`, a
non-negative `int`, ends at intensity -2147483549 and not at
`min (100 + 2147483647) 100 = 100`, because the sum wraps around. -/
theorem increaseIntensity_min_counterexample :
    fullLight.currentIntensity = 100 ∧
    fullLight.maxIntensity = 100 ∧ fullLight.minIntensity = 0 ∧
    (0 : Int) ≤ 2147483647 ∧ isInt32 2147483647 ∧
    (fullLight.increaseIntensity 2147483647).2.currentIntensity = -2147483549 ∧
    (fullLight.increaseIntensity 2147483647).2.currentIntensity ≠
      min (fullLight.currentIntensity + 2147483647) 100 := by
  decide

/-- C2 (amended): for a light with bounds 0 and 100 whose intensity `i` is in
`[0,100]` and a non-negative amount `a` such that `i + a` does not exceed the
largest `int`, the intensity after `increaseIntensity(a)` is `min (i + a) 100`. -/
theorem increaseIntensity_min (l : Light) (a : Int)
    (hmax : l.maxIntensity = 100)
    (hlo : 0 ≤ l.currentIntensity) (hhi : l.currentIntensity ≤ 100)
    (ha : 0 ≤ a) (hsum : l.currentIntensity + a ≤ 2147483647) :
    (l.increaseIntensity a).2.currentIntensity = min (l.currentIntensity + a) 100 := by
  rw [Light.increaseIntensity_currentIntensity, hmax,
    wrap32_of_isInt32 _ ⟨by omega, hsum⟩]
  split_ifs <;> omega

theorem increaseIntensity_min_witness :
    ((Light.new 0 "Blue").increaseIntensity 20).2.currentIntensity = min (0 + 20) 100 :=
  increaseIntensity_min (Light.new 0 "Blue") 20 (by decide) (by decide) (by decide)
    (by decide) (by decide)

/-- C3: for a light with bounds 0 and 100 whose intensity `i` is in `[0,100]`
and every non-negative `int` amount `a`, the intensity after
`decreaseIntensity(a)` is `max (i - a) 0`. -/
theorem decreaseIntensity_max (l : Light) (a : Int)
    (hmin : l.minIntensity = 0)
    (hlo : 0 ≤ l.currentIntensity) (hhi : l.currentIntensity ≤ 100)
    (ha : 0 ≤ a) (hint : a ≤ 2147483647) :
    (l.decreaseIntensity a).2.currentIntensity = max (l.currentIntensity - a) 0 := by
  rw [Light.decreaseIntensity_currentIntensity, hmin,
    wrap32_of_isInt32 _ ⟨by omega, by omega⟩]
  split_ifs <;> omega

theorem decreaseIntensity_max_witness :
    (fullLight.decreaseIntensity 2147483647).2.currentIntensity =
      max (fullLight.currentIntensity - 2147483647) 0 :=
  decreaseIntensity_max fullLight 2147483647 (by decide) (by decide) (by decide)
    (by decide) (by decide)

/-- The bounds set by the constructor and the range of the intensity are kept
by every call whose addition does not overflow. -/
theorem Light.call_inv (l : Light) (c : LightCall)
    (hmax : l.maxIntensity = 100) (hmin : l.minIntensity = 0)
    (hlo : 0 ≤ l.currentIntensity) (hhi : l.currentIntensity ≤ 100)
    (hc : l.noOverflow [c]) :
    (l.call c).maxIntensity = 100 ∧ (l.call c).minIntensity = 0 ∧
    0 ≤ (l.call c).currentIntensity ∧ (l.call c).currentIntensity ≤ 100 := by
  cases c with
  | toggle =>
    have h := l.toggle_fields
    simp only [Light.call]
    omega
  | increaseIntensity a =>
    have hb := l.increaseIntensity_bounds a
    have hi := l.increaseIntensity_currentIntensity a
    simp only [Light.noOverflow, and_true] at hc
    rw [hmax, wrap32_of_isInt32 _ ⟨by omega, hc.2⟩] at hi
    simp only [Light.call]
    split_ifs at hi <;> omega
  | decreaseIntensity a =>
    have hb := l.decreaseIntensity_bounds a
    have hi := l.decreaseIntensity_currentIntensity a
    simp only [Light.noOverflow, and_true] at hc
    rw [hmin, wrap32_of_isInt32 _ ⟨by omega, by omega⟩] at hi
    simp only [Light.call]
    split_ifs at hi <;> omega

/-- The invariant of `Light.call_inv` along a whole sequence of calls. -/
theorem Light.run_inv (cs : List LightCall) :
    ∀ l : Light, l.maxIntensity = 100 → l.minIntensity = 0 →
      0 ≤ l.currentIntensity → l.currentIntensity ≤ 100 → l.noOverflow cs →
      0 ≤ (l.run cs).currentIntensity ∧ (l.run cs).currentIntensity ≤ 100 := by
  induction cs with
  | nil =>
    intro l _ _ hlo hhi _
    exact ⟨hlo, hhi⟩
  | cons c cs ih =>
    intro l hmax hmin hlo hhi hc
    have h1 : l.noOverflow [c] ∧ (l.call c).noOverflow cs := by
      cases c <;> simp only [Light.noOverflow, and_true, true_and] at hc ⊢
      · exact hc
      · exact hc
      · exact hc
    obtain ⟨h2, h3, h4, h5⟩ := l.call_inv c hmax hmin hlo hhi h1.1
    exact ih (l.call c) h2 h3 h4 h5 h1.2

/-- C4, as stated, fails: from a newly constructed light the two calls
`increaseIntensity(100)` and `increaseIntensity(2147483647)`, both with
non-negative `int` amounts, lead to intensity -2147483549, outside `[0,100]`. -/
theorem intensity_range_counterexample :
    Light.nonNegAmounts
      [LightCall.increaseIntensity 100, LightCall.increaseIntensity 2147483647] ∧
    ((Light.new 0 "Blue").run
      [LightCall.increaseIntensity 100,
       LightCall.increaseIntensity 2147483647]).currentIntensity = -2147483549 ∧
    ¬ (0 ≤ ((Light.new 0 "Blue").run
        [LightCall.increaseIntensity 100,
         LightCall.increaseIntensity 2147483647]).currentIntensity ∧
      ((Light.new 0 "Blue").run
        [LightCall.increaseIntensity 100,
         LightCall.increaseIntensity 2147483647]).currentIntensity ≤ 100) := by
  refine ⟨?_, by decide, by decide⟩
  simp [Light.nonNegAmounts]

/-- C4 (amended): in every state reached from a newly constructed light by a
finite sequence of `toggle()`, `increaseIntensity(a)` and `decreaseIntensity(a)`
calls with non-negative `int` amounts in which no sum `currentIntensity + a` of
an `increaseIntensity` exceeds the largest `int`, the intensity is in
`[0,100]`. -/
theorem intensity_range_reachable (_id : Int) (_color : String) (cs : List LightCall)
    (h : (Light.new _id _color).noOverflow cs) :
    0 ≤ ((Light.new _id _color).run cs).currentIntensity ∧
    ((Light.new _id _color).run cs).currentIntensity ≤ 100 :=
  Light.run_inv cs (Light.new _id _color) rfl rfl (le_refl 0) (by simp [Light.new]) h

theorem intensity_range_reachable_witness :
    0 ≤ ((Light.new 0 "Blue").run
      [LightCall.increaseIntensity 70, LightCall.toggle,
       LightCall.increaseIntensity 2147483577,
       LightCall.decreaseIntensity 2147483647]).currentIntensity ∧
    ((Light.new 0 "Blue").run
      [LightCall.increaseIntensity 70, LightCall.toggle,
       LightCall.increaseIntensity 2147483577,
       LightCall.decreaseIntensity 2147483647]).currentIntensity ≤ 100 :=
  intensity_range_reachable 0 "Blue"
    [LightCall.increaseIntensity 70, LightCall.toggle,
     LightCall.increaseIntensity 2147483577,
     LightCall.decreaseIntensity 2147483647]
    (by simp only [Light.noOverflow]; decide)

/-! ## Coupling of intensity and on/off state -/

/-- C5: a light that is off, with intensity in `[0,100]`, is on after
`increaseIntensity(a)` for a non-negative amount `a` that leaves its intensity
above 0. -/
theorem increaseIntensity_turns_on (l : Light) (a : Int)
    (_hoff : l.currentState = State.off)
    (_hlo : 0 ≤ l.currentIntensity) (_hhi : l.currentIntensity ≤ 100) (_ha : 0 ≤ a)
    (_hres : 0 < (l.increaseIntensity a).2.currentIntensity) :
    (l.increaseIntensity a).2.currentState = State.on :=
  l.increaseIntensity_currentState a

theorem increaseIntensity_turns_on_witness :
    ((Light.new 0 "Blue").increaseIntensity 20).2.currentState = State.on :=
  increaseIntensity_turns_on (Light.new 0 "Blue") 20 (by decide) (by decide)
    (by decide) (by decide) (by decide)

/-- C6: after any `decreaseIntensity` call that leaves the intensity of a light
(with lower bound 0) at exactly 0 the state is off; in particular this holds
for a light that was on with intensity in `[0,100]` and a non-negative
amount. -/
theorem decreaseIntensity_turns_off (l : Light) (a : Int)
    (hmin : l.minIntensity = 0)
    (hres : (l.decreaseIntensity a).2.currentIntensity = 0) :
    (l.decreaseIntensity a).2.currentState = State.off := by
  rw [Light.decreaseIntensity_currentState, hres, hmin]
  cases hs : l.currentState <;> simp

theorem decreaseIntensity_turns_off_witness :
    (fullLight.decreaseIntensity 100).2.currentState = State.off :=
  decreaseIntensity_turns_off fullLight 100 (by decide) (by decide)

/-- C7, as stated, fails: a new light (off, intensity 0) that receives
`increaseIntensity(0)` is on afterwards although its resulting intensity is 0,
not above 0. -/
theorem state_frame_counterexample :
    (Light.new 0 "Blue").currentState = State.off ∧
    (Light.new 0 "Blue").currentIntensity = 0 ∧
    ((Light.new 0 "Blue").increaseIntensity 0).2.currentIntensity = 0 ∧
    ((Light.new 0 "Blue").increaseIntensity 0).2.currentState = State.on ∧
    ¬ (((Light.new 0 "Blue").increaseIntensity 0).2.currentState =
          (Light.new 0 "Blue").currentState ∨
        ((Light.new 0 "Blue").currentState = State.off ∧
          0 < ((Light.new 0 "Blue").increaseIntensity 0).2.currentIntensity)) := by
  decide

/-- C7 (amended): `increaseIntensity(a)` leaves the state as it was unless the
light was off, in which case the light is on afterwards whatever the resulting
intensity; `decreaseIntensity(a)` leaves the state as it was unless the light
was on and the resulting intensity is exactly 0 (the lower bound). -/
theorem state_frame (l : Light) (a : Int) (hmin : l.minIntensity = 0) :
    (l.currentState = State.on →
      (l.increaseIntensity a).2.currentState = l.currentState) ∧
    (l.currentState = State.off →
      (l.increaseIntensity a).2.currentState = State.on) ∧
    (¬ (l.currentState = State.on ∧ (l.decreaseIntensity a).2.currentIntensity = 0) →
      (l.decreaseIntensity a).2.currentState = l.currentState) := by
  refine ⟨?_, ?_, ?_⟩
  · intro h
    rw [Light.increaseIntensity_currentState, h]
  · intro _
    exact l.increaseIntensity_currentState a
  · intro h
    rw [Light.decreaseIntensity_currentState, hmin, if_neg]
    intro hc
    exact h ⟨hc.2, hc.1⟩

theorem state_frame_witness :
    (fullLight.currentState = State.on →
      (fullLight.increaseIntensity 30).2.currentState = fullLight.currentState) ∧
    (fullLight.currentState = State.off →
      (fullLight.increaseIntensity 30).2.currentState = State.on) ∧
    (¬ (fullLight.currentState = State.on ∧
        (fullLight.decreaseIntensity 30).2.currentIntensity = 0) →
      (fullLight.decreaseIntensity 30).2.currentState = fullLight.currentState) :=
  state_frame fullLight 30 (by decide)

/-! ## `toggle` -/

/-- C8: two calls of `toggle()` in a row leave a device, off or on, in its
original on/off state (and, the id being untouched, as the same object). -/
theorem toggle_involution (d : Device) :
    ((d.toggle).2.toggle).2.currentState = d.currentState ∧
    ((d.toggle).2.toggle).2 = d := by
  cases d with
  | mk id st => cases st <;> simp [Device.toggle]

/-- C9: `toggle()` sets the state to the opposite of what it was (off becomes
on, on becomes off), and the value it returns is the new state, the one
`getCurrentState()` returns right afterwards. -/
theorem toggle_flips_and_returns (d : Device) :
    (d.toggle).2.currentState =
      (if d.currentState = State.off then State.on else State.off) ∧
    (d.toggle).2.currentState ≠ d.currentState ∧
    (d.toggle).1 = (d.toggle).2.getCurrentState := by
  cases d with
  | mk id st => cases st <;> simp [Device.toggle, Device.getCurrentState]

/-! ## Device identifiers -/

namespace ControlSystem

theorem createLight_fst (a : ControlSystem) (color : String) :
    (a.createLight color).1 = a.nextID := rfl

theorem createLight_nextID (a : ControlSystem) (color : String) :
    (a.createLight color).2.nextID = wrap32 (a.nextID + 1) := rfl

/-- A call other than `createLight` returns no device id and leaves the
counter alone. -/
theorem call_other (a : ControlSystem) (c : Call) (hc : c.isCreateLight = false)
    (rs : List Returned) :
    (a.call c).2.nextID = a.nextID ∧ createdIds ((a.call c).1 :: rs) = createdIds rs := by
  cases c <;> first
    | exact ⟨rfl, rfl⟩
    | simp [Call.isCreateLight] at hc

/-- The counter after `n` calls of `createLight`, as long as it has not passed
the largest `int`. -/
theorem createLights_nextID (a : ControlSystem) (n : Nat)
    (hlo : -2147483648 ≤ a.nextID) (hhi : a.nextID + (n : Int) ≤ 2147483647) :
    (a.createLights n).nextID = a.nextID + (n : Int) := by
  induction n with
  | zero => simp [createLights]
  | succ n ih =>
    have h := ih (by push_cast at hhi; omega)
    show ((a.createLights n).createLight "").2.nextID = _
    rw [createLight_nextID, h, wrap32_of_isInt32 _ ⟨by omega, by push_cast at hhi; omega⟩]
    push_cast
    omega

/-- Two `createLight` calls on a registry whose counter is the largest `int`. -/
theorem createLight_at_INT_MAX (a : ControlSystem) (h : a.nextID = 2147483647)
    (c1 c2 : String) :
    (a.createLight c1).1 = 2147483647 ∧
    ((a.createLight c1).2.createLight c2).1 = -2147483648 := by
  refine ⟨by rw [createLight_fst, h], ?_⟩
  rw [createLight_fst, createLight_nextID, h]
  decide

/-- The ids returned by the `createLight` calls of a sequence, as long as none
of them is taken from a counter that has wrapped around. -/
theorem run_createdIds (cs : List Call) :
    ∀ a : ControlSystem,
      (cs.countP Call.isCreateLight = 0 ∨
        (-2147483648 ≤ a.nextID ∧
          a.nextID + (cs.countP Call.isCreateLight : Nat) ≤ 2147483648)) →
      createdIds (a.run cs).1 =
        (List.range (cs.countP Call.isCreateLight)).map (fun (k : Nat) => a.nextID + (k : Int)) := by
  induction cs with
  | nil => intro a _; rfl
  | cons c cs ih =>
    intro a h
    cases hc : c.isCreateLight with
    | false =>
      have hcount : (c :: cs).countP Call.isCreateLight = cs.countP Call.isCreateLight := by
        simp [List.countP_cons, hc]
      rw [hcount] at h ⊢
      obtain ⟨h1, h2⟩ := a.call_other c hc (run (a.call c).2 cs).1
      show createdIds ((a.call c).1 :: (run (a.call c).2 cs).1) = _
      rw [h2, ih (a.call c).2 (by rw [h1]; exact h), h1]
    | true =>
      obtain ⟨color, rfl⟩ : ∃ color, c = Call.createLight color := by
        cases c <;> simp [Call.isCreateLight] at hc
        exact ⟨_, rfl⟩
      have hcount : (Call.createLight color :: cs).countP Call.isCreateLight =
          cs.countP Call.isCreateLight + 1 := by
        simp [List.countP_cons, Call.isCreateLight]
      rw [hcount] at h ⊢
      have hb : -2147483648 ≤ a.nextID ∧
          a.nextID + ((cs.countP Call.isCreateLight + 1 : Nat) : Int) ≤ 2147483648 := by
        rcases h with h | h
        · omega
        · exact h
      push_cast at hb
      show a.nextID :: createdIds (run (a.createLight color).2 cs).1 = _
      rw [List.range_succ_eq_map, List.map_cons, List.map_map]
      congr 1
      · simp
      · by_cases h0 : cs.countP Call.isCreateLight = 0
        · rw [ih _ (Or.inl h0), h0]
          rfl
        · have hpos : 0 < cs.countP Call.isCreateLight := Nat.pos_of_ne_zero h0
          have hn : (a.createLight color).2.nextID = a.nextID + 1 := by
            rw [createLight_nextID, wrap32_of_isInt32 _ ⟨by omega, by omega⟩]
          rw [ih _ (Or.inr ⟨by rw [hn]; omega, by rw [hn]; omega⟩), hn]
          apply List.map_congr_left
          intro k _
          simp only [Function.comp, Nat.succ_eq_add_one]
          push_cast
          omega

end ControlSystem

/-- Consecutive integers are strictly increasing. -/
theorem pairwise_lt_consecutive (n : Int) (m : Nat) :
    List.Pairwise (fun x y => x < y) ((List.range m).map (fun (k : Nat) => n + (k : Int))) := by
  rw [List.pairwise_map]
  refine List.Pairwise.imp ?_ (List.pairwise_lt_range m)
  intro i j hij
  omega

/-- C10, as stated, fails: after 2147483647 calls of `createLight` on a fresh
registry the counter is the largest `int`; the next two `createLight` calls
return 2147483647 and then -2147483648, which is neither the successor of the
first nor greater than it. -/
theorem createLight_sequential_counterexample :
    (ControlSystem.getInstance.createLights 2147483647).nextID = 2147483647 ∧
    ((ControlSystem.getInstance.createLights 2147483647).createLight "Blue").1
      = 2147483647 ∧
    (((ControlSystem.getInstance.createLights 2147483647).createLight "Blue").2.createLight
      "Red").1 = -2147483648 ∧
    ¬ (((ControlSystem.getInstance.createLights 2147483647).createLight "Blue").1 <
      (((ControlSystem.getInstance.createLights 2147483647).createLight "Blue").2.createLight
        "Red").1) := by
  have h : (ControlSystem.getInstance.createLights 2147483647).nextID = 2147483647 := by
    have h0 := ControlSystem.createLights_nextID ControlSystem.getInstance 2147483647
      (by decide) (by decide)
    rw [h0]
    decide
  obtain ⟨h1, h2⟩ := ControlSystem.createLight_at_INT_MAX _ h "Blue" "Red"
  refine ⟨h, h1, h2, ?_⟩
  rw [h1, h2]
  decide

/-- C10 (amended): in a registry whose counter `n` is an `int`, a sequence of
registry calls whose `createLight` calls do not take the counter past the
largest `int` returns from its `createLight` calls exactly the ids
`n, n+1, n+2, ...` in call order, whatever other calls are interleaved; these
ids are strictly increasing and pairwise distinct; on a fresh registry `n = 0`,
so the `k`-th call returns `k`; and two successive calls return `n` and `n+1`
when `n` is below the largest `int`. -/
theorem createLight_sequential (a : ControlSystem) (cs : List Call)
    (hlo : -2147483648 ≤ a.nextID)
    (hhi : a.nextID + (cs.countP Call.isCreateLight : Nat) ≤ 2147483648) :
    createdIds (a.run cs).1 =
      (List.range (cs.countP Call.isCreateLight)).map (fun (k : Nat) => a.nextID + (k : Int)) ∧
    List.Pairwise (fun x y => x < y) (createdIds (a.run cs).1) ∧
    (createdIds (a.run cs).1).Nodup ∧
    ControlSystem.getInstance.nextID = 0 ∧
    (∀ c1 c2 : String, a.nextID < 2147483647 →
      (a.createLight c1).1 = a.nextID ∧
      ((a.createLight c1).2.createLight c2).1 = a.nextID + 1) := by
  have hids := ControlSystem.run_createdIds cs a (Or.inr ⟨hlo, hhi⟩)
  have hpw := pairwise_lt_consecutive a.nextID (cs.countP Call.isCreateLight)
  refine ⟨hids, ?_, ?_, rfl, ?_⟩
  · rw [hids]
    exact hpw
  · rw [hids]
    exact List.Pairwise.imp (fun h => ne_of_lt h) hpw
  · intro c1 c2 hlt
    refine ⟨rfl, ?_⟩
    rw [ControlSystem.createLight_fst, ControlSystem.createLight_nextID,
      wrap32_of_isInt32 _ ⟨by omega, by omega⟩]

theorem createLight_sequential_witness :
    (-2147483648 ≤ ControlSystem.getInstance.nextID ∧
      ControlSystem.getInstance.nextID +
        (sampleCalls.countP Call.isCreateLight : Nat) ≤ 2147483648) ∧
    (createdIds (ControlSystem.getInstance.run sampleCalls).1 =
      (List.range (sampleCalls.countP Call.isCreateLight)).map
        (fun (k : Nat) => ControlSystem.getInstance.nextID + (k : Int)) ∧
    List.Pairwise (fun x y => x < y)
      (createdIds (ControlSystem.getInstance.run sampleCalls).1) ∧
    (createdIds (ControlSystem.getInstance.run sampleCalls).1).Nodup ∧
    ControlSystem.getInstance.nextID = 0 ∧
    (∀ c1 c2 : String, ControlSystem.getInstance.nextID < 2147483647 →
      (ControlSystem.getInstance.createLight c1).1 = ControlSystem.getInstance.nextID ∧
      ((ControlSystem.getInstance.createLight c1).2.createLight c2).1 =
        ControlSystem.getInstance.nextID + 1)) :=
  ⟨⟨by decide, by decide⟩,
   createLight_sequential ControlSystem.getInstance sampleCalls (by decide) (by decide)⟩

/-! ## Lookups in the registry and on the panel -/

/-- C11 (evaluation at the failing input): on a fresh registry, after
`getLightDevice(0)` the call `createLight("Blue")` returns 0 and stores a new
light (id 0, off, intensity 0) in the free store, yet `getLightDevice(0)` right
afterwards returns the null pointer: the earlier lookup left the entry
`(0, nullptr)` in `deviceMap` and `insert` keeps it. -/
theorem getLightDevice_after_early_lookup :
    ((ControlSystem.getInstance.getLightDevice 0).2.createLight "Blue").1 = 0 ∧
    ((ControlSystem.getInstance.getLightDevice 0).2.createLight "Blue").2.heap.lights =
      [Light.new 0 "Blue"] ∧
    ((ControlSystem.getInstance.getLightDevice 0).2.createLight "Blue").2.deviceMap =
      [(0, none)] ∧
    (((ControlSystem.getInstance.getLightDevice 0).2.createLight "Blue").2.getLightDevice
      0).1 = none := by
  decide

/-- C12 (evaluation at the failing input): on an empty panel, after
`getButton("A")` the call `addButton("A", b)` with `b` the button at address 0
returns `"A"`, yet `getButton("A")` afterwards returns the null pointer and not
`b`; likewise on a fresh registry `createButton("A", c)` after `getButton("A")`
returns `"A"` and `getButton("A")` then returns the null pointer, on which
`press()` cannot run. -/
theorem getButton_after_early_lookup :
    addedLabels [PanelCall.getButton "A"] = [] ∧
    ((({} : ControlPanel).run [PanelCall.getButton "A"]).addButton "A" (some 0)).1 = "A" ∧
    ((({} : ControlPanel).run
      [PanelCall.getButton "A", PanelCall.addButton "A" (some 0)]).getButton "A").1 = none ∧
    ((({} : ControlPanel).run
      [PanelCall.getButton "A", PanelCall.addButton "A" (some 0)]).getButton "A").1
        ≠ some 0 ∧
    ((ControlSystem.getInstance.run
      [Call.getButton "A", Call.newToggleCommand none]).2.createButton "A" (some 0)).1
        = "A" ∧
    (((ControlSystem.getInstance.run
      [Call.getButton "A", Call.newToggleCommand none]).2.createButton "A"
        (some 0)).2.getButton "A").1 = none ∧
    pressButton ((ControlSystem.getInstance.run
      [Call.getButton "A", Call.newToggleCommand none]).2.createButton "A" (some 0)).2 "A"
        = none := by
  decide

/-- The label list after a sequence of panel calls started on any panel. -/
theorem ControlPanel.run_Labels (cs : List PanelCall) :
    ∀ p : ControlPanel, (p.run cs).Labels = p.Labels ++ addedLabels cs := by
  induction cs with
  | nil => intro p; simp [ControlPanel.run, addedLabels]
  | cons c cs ih =>
    intro p
    cases c with
    | addButton label b =>
      simp [ControlPanel.run, ControlPanel.call, ControlPanel.addButton, addedLabels, ih]
    | getButton label =>
      simp [ControlPanel.run, ControlPanel.call, ControlPanel.getButton, addedLabels, ih]

/-- C13: after any sequence of `addButton` calls with labels `l1, ..., ln` on an
empty panel, with `getButton` calls interleaved anywhere, `getLabels()` returns
exactly `[l1, ..., ln]`: one entry per `addButton` call, in call order, repeated
labels included. -/
theorem getLabels_insertion_order (cs : List PanelCall) :
    (({} : ControlPanel).run cs).getLabels = addedLabels cs := by
  have h := ControlPanel.run_Labels cs {}
  simpa [ControlPanel.getLabels] using h

/-- C14 (evaluation at the failing input): on a fresh registry `getButton("A")`
and `getLightDevice(5)`, for a label and an id nothing was registered under,
return normally with the null pointer, and each leaves a new entry for the
unknown key in its map; the statement `a.getButton("A")->press();` of the kind
`main` uses then dereferences that null pointer. -/
theorem lookup_unknown_key :
    (ControlSystem.getInstance.getButton "A").1 = none ∧
    (ControlSystem.getInstance.getButton "A").2.Panel.Layout = [("A", none)] ∧
    (ControlSystem.getInstance.getLightDevice 5).1 = none ∧
    (ControlSystem.getInstance.getLightDevice 5).2.deviceMap = [(5, none)] ∧
    (({} : ControlPanel).getButton "A").1 = none ∧
    (({} : ControlPanel).getButton "A").2.Layout = [("A", none)] ∧
    pressButton ControlSystem.getInstance "A" = none := by
  decide

/-! ## Pressing a button -/

namespace Heap

theorem light_setLight_same (h : Heap) (k : Nat) (l l1 : Light)
    (hl : h.light (some k) = some l) :
    (h.setLight k l1).light (some k) = some l1 := by
  simp only [light, setLight, Option.some_bind] at hl ⊢
  have hk : k < h.lights.length := by
    by_contra hn
    rw [List.getElem?_eq_none (by omega)] at hl
    exact Option.noConfusion hl
  rw [List.getElem?_set_self hk]

theorem light_setLight_other (h : Heap) (k k1 : Nat) (l1 : Light) (hne : k1 ≠ k) :
    (h.setLight k l1).light (some k1) = h.light (some k1) := by
  simp only [light, setLight, Option.some_bind]
  rw [List.getElem?_set_ne (Ne.symm hne)]

end Heap

/-- What `execute` does when the device pointer of the command addresses a
light. -/
theorem Command.execute_eq (c : Command) (h : Heap) (k : Nat) (l : Light)
    (ht : c.target = some k) (hl : h.light (some k) = some l) :
    c.execute h = some (true, h.setLight k
      (match c with
        | Command.toggleCommand _ => (l.toggle).2
        | Command.increaseCommand _ amount => (l.increaseIntensity amount).2
        | Command.decreaseCommand _ amount => (l.decreaseIntensity amount).2)) := by
  cases c <;> simp only [Command.target] at ht <;> subst ht <;>
    simp only [Command.execute, hl]

/-- C15: `press()` dispatches to the bound command and reports success.  For a
button whose command is a toggle, an increase-by-`n` or a decrease-by-`n` on the
light `l` at address `k`, `press()` returns `true` and the store afterwards
differs from the one before only in that light, which is then what `l.toggle()`,
`l.increaseIntensity(n)` or `l.decreaseIntensity(n)` leaves; commands and
buttons are left as they were, so every later press uses the same `n`. -/
theorem press_dispatch (h : Heap) (b : Button) (k : Nat) (l : Light) (n : Int)
    (hl : h.light (some k) = some l) :
    (h.command b.onPress = some (Command.toggleCommand (some k)) →
      b.press h = some (true, h.setLight k (l.toggle).2) ∧
      (h.setLight k (l.toggle).2).light (some k) = some (l.toggle).2) ∧
    (h.command b.onPress = some (Command.increaseCommand (some k) n) →
      b.press h = some (true, h.setLight k (l.increaseIntensity n).2) ∧
      (h.setLight k (l.increaseIntensity n).2).light (some k) =
        some (l.increaseIntensity n).2) ∧
    (h.command b.onPress = some (Command.decreaseCommand (some k) n) →
      b.press h = some (true, h.setLight k (l.decreaseIntensity n).2) ∧
      (h.setLight k (l.decreaseIntensity n).2).light (some k) =
        some (l.decreaseIntensity n).2) ∧
    (∀ l1 : Light, (h.setLight k l1).commands = h.commands ∧
      (h.setLight k l1).buttons = h.buttons ∧
      (h.setLight k l1).command b.onPress = h.command b.onPress) := by
  refine ⟨?_, ?_, ?_, ?_⟩
  · intro hc
    refine ⟨?_, h.light_setLight_same k l _ hl⟩
    simp only [Button.press, hc]
    exact Command.execute_eq (Command.toggleCommand (some k)) h k l rfl hl
  · intro hc
    refine ⟨?_, h.light_setLight_same k l _ hl⟩
    simp only [Button.press, hc]
    exact Command.execute_eq (Command.increaseCommand (some k) n) h k l rfl hl
  · intro hc
    refine ⟨?_, h.light_setLight_same k l _ hl⟩
    simp only [Button.press, hc]
    exact Command.execute_eq (Command.decreaseCommand (some k) n) h k l rfl hl
  · intro l1
    exact ⟨rfl, rfl, rfl⟩

theorem press_dispatch_witness :
    mainWiring.a.heap.light (some 0) = some (Light.new 0 "Blue") ∧
    mainWiring.a.heap.command (Button.new (some 3)).onPress =
      some (Command.increaseCommand (some 0) 20) ∧
    (Button.new (some 3)).press mainWiring.a.heap =
      some (true, mainWiring.a.heap.setLight 0 ((Light.new 0 "Blue").increaseIntensity 20).2) :=
  ⟨by decide, by decide,
   ((press_dispatch mainWiring.a.heap (Button.new (some 3)) 0 (Light.new 0 "Blue") 20
      (by decide)).2.1 (by decide)).1⟩

/-- C19: a press touches exactly one device.  In any registry state, for a
button whose command is bound to the light at address `k` (with id `i`),
`press()` returns, and afterwards the id counter, the device map, the label
list, the label-to-button mapping, the commands and the buttons are as before;
every light at another address, hence every device with an id other than `i`,
is as before (state, intensity and id); and the light at `k` still has id
`i`. -/
theorem press_frame (a : ControlSystem) (button : Ptr) (b : Button) (c : Command)
    (k : Nat) (l : Light)
    (hb : a.heap.button button = some b) (hc : a.heap.command b.onPress = some c)
    (ht : c.target = some k) (hl : a.heap.light (some k) = some l) :
    ∃ a1 : ControlSystem, a.press button = some (true, a1) ∧
      a1.nextID = a.nextID ∧ a1.deviceMap = a.deviceMap ∧
      a1.Panel.Labels = a.Panel.Labels ∧ a1.Panel.Layout = a.Panel.Layout ∧
      a1.heap.commands = a.heap.commands ∧ a1.heap.buttons = a.heap.buttons ∧
      (∀ k1 : Nat, k1 ≠ k → a1.heap.light (some k1) = a.heap.light (some k1)) ∧
      (∀ (k1 : Nat) (l1 : Light), a.heap.light (some k1) = some l1 → l1.id ≠ l.id →
        a1.heap.light (some k1) = some l1) ∧
      (∃ l2 : Light, a1.heap.light (some k) = some l2 ∧ l2.id = l.id) := by
  obtain ⟨l2, hex, hid2⟩ : ∃ l2 : Light,
      c.execute a.heap = some (true, a.heap.setLight k l2) ∧ l2.id = l.id := by
    have h0 := Command.execute_eq c a.heap k l ht hl
    cases c with
    | toggleCommand d => exact ⟨_, h0, l.toggle_fields.2.2.2⟩
    | increaseCommand d n => exact ⟨_, h0, (l.increaseIntensity_bounds n).2.2⟩
    | decreaseCommand d n => exact ⟨_, h0, (l.decreaseIntensity_bounds n).2.2⟩
  refine ⟨{ a with heap := a.heap.setLight k l2 }, ?_, rfl, rfl, rfl, rfl, rfl, rfl,
    ?_, ?_, ?_⟩
  · simp only [ControlSystem.press, hb, Button.press, hc, hex]
  · intro k1 hne
    exact a.heap.light_setLight_other k k1 _ hne
  · intro k1 l1 hl1 hid
    have hne : k1 ≠ k := by
      intro heq
      subst heq
      rw [hl] at hl1
      exact hid (by rw [Option.some.inj hl1])
    rw [Heap.light_setLight_other _ k k1 _ hne, hl1]
  · exact ⟨l2, a.heap.light_setLight_same k l _ hl, hid2⟩

theorem press_frame_witness :
    ∃ a1 : ControlSystem, mainWiring.a.press (some 3) = some (true, a1) ∧
      a1.nextID = mainWiring.a.nextID ∧ a1.deviceMap = mainWiring.a.deviceMap ∧
      a1.Panel.Labels = mainWiring.a.Panel.Labels ∧
      a1.Panel.Layout = mainWiring.a.Panel.Layout ∧
      a1.heap.commands = mainWiring.a.heap.commands ∧
      a1.heap.buttons = mainWiring.a.heap.buttons ∧
      (∀ k1 : Nat, k1 ≠ 0 →
        a1.heap.light (some k1) = mainWiring.a.heap.light (some k1)) ∧
      (∀ (k1 : Nat) (l1 : Light), mainWiring.a.heap.light (some k1) = some l1 →
        l1.id ≠ (Light.new 0 "Blue").id → a1.heap.light (some k1) = some l1) ∧
      (∃ l2 : Light, a1.heap.light (some 0) = some l2 ∧ l2.id = (Light.new 0 "Blue").id) :=
  press_frame mainWiring.a (some 3) (Button.new (some 3))
    (Command.increaseCommand (some 0) 20) 0 (Light.new 0 "Blue")
    (by decide) (by decide) (by decide) (by decide)

/-! ## Amounts of any sign and size -/

/-- C16, as stated, fails: a new light (intensity 0) after
`increaseIntensity(-50)` has intensity -50, and a light at intensity 100 after
`decreaseIntensity(-50)` has intensity 150; -50 is an `int`. -/
theorem any_amount_counterexample :
    isInt32 (-50) ∧
    (Light.new 0 "Blue").currentIntensity = 0 ∧
    ((Light.new 0 "Blue").increaseIntensity (-50)).2.currentIntensity = -50 ∧
    ¬ (0 ≤ ((Light.new 0 "Blue").increaseIntensity (-50)).2.currentIntensity) ∧
    fullLight.currentIntensity = 100 ∧
    (fullLight.decreaseIntensity (-50)).2.currentIntensity = 150 ∧
    ¬ ((fullLight.decreaseIntensity (-50)).2.currentIntensity ≤ 100) := by
  decide

/-- C16 (amended): every amount is accepted (both calls return `true`) and each
call clamps on its own side: for a light with bounds 0 and 100 and intensity in
`[0,100]` and every `int` amount, the intensity after `increaseIntensity` is at
most 100 and the intensity after `decreaseIntensity` is at least 0; the other
bound holds when the amount is non-negative and, for `increaseIntensity`, the
sum of intensity and amount does not exceed the largest `int`. -/
theorem any_amount_one_sided (l : Light) (a : Int)
    (hmax : l.maxIntensity = 100) (hmin : l.minIntensity = 0)
    (hlo : 0 ≤ l.currentIntensity) (hhi : l.currentIntensity ≤ 100)
    (hint : isInt32 a) :
    (l.increaseIntensity a).1 = true ∧ (l.decreaseIntensity a).1 = true ∧
    (l.increaseIntensity a).2.currentIntensity ≤ 100 ∧
    0 ≤ (l.decreaseIntensity a).2.currentIntensity ∧
    (0 ≤ a → l.currentIntensity + a ≤ 2147483647 →
      0 ≤ (l.increaseIntensity a).2.currentIntensity) ∧
    (0 ≤ a → (l.decreaseIntensity a).2.currentIntensity ≤ 100) := by
  unfold isInt32 at hint
  refine ⟨rfl, rfl, ?_, ?_, ?_, ?_⟩
  · rw [Light.increaseIntensity_currentIntensity, hmax]
    split_ifs <;> omega
  · rw [Light.decreaseIntensity_currentIntensity, hmin]
    split_ifs <;> omega
  · intro ha hsum
    rw [Light.increaseIntensity_currentIntensity, hmax,
      wrap32_of_isInt32 _ ⟨by omega, hsum⟩]
    split_ifs <;> omega
  · intro ha
    rw [Light.decreaseIntensity_currentIntensity, hmin,
      wrap32_of_isInt32 _ ⟨by omega, by omega⟩]
    split_ifs <;> omega

theorem any_amount_one_sided_witness :
    (fullLight.increaseIntensity 2147483547).1 = true ∧
    (fullLight.decreaseIntensity 2147483547).1 = true ∧
    (fullLight.increaseIntensity 2147483547).2.currentIntensity ≤ 100 ∧
    0 ≤ (fullLight.decreaseIntensity 2147483547).2.currentIntensity ∧
    ((0 : Int) ≤ 2147483547 → fullLight.currentIntensity + 2147483547 ≤ 2147483647 →
      0 ≤ (fullLight.increaseIntensity 2147483547).2.currentIntensity) ∧
    ((0 : Int) ≤ 2147483547 →
      (fullLight.decreaseIntensity 2147483547).2.currentIntensity ≤ 100) :=
  any_amount_one_sided fullLight 2147483547 (by decide) (by decide) (by decide)
    (by decide) (by decide)

/-! ## Saturation -/

namespace Light

/-- An `increaseIntensity` that finds the light on, at its upper bound, and
whose sum is not below that bound leaves the object as it is. -/
theorem increaseIntensity_noop (l : Light) (b : Int)
    (hcur : l.currentIntensity = l.maxIntensity) (hon : l.currentState = State.on)
    (hsum : ¬ wrap32 (l.currentIntensity + b) < l.maxIntensity) :
    (l.increaseIntensity b).2 = l := by
  obtain ⟨⟨id, st⟩, color, mx, mn, cur⟩ := l
  simp only at hcur hon hsum
  subst hcur hon
  simp [increaseIntensity, getCurrentState, Device.getCurrentState, hsum]

/-- A `decreaseIntensity` that finds the light off, at its lower bound, and
whose difference is not above that bound leaves the object as it is. -/
theorem decreaseIntensity_noop (l : Light) (b : Int)
    (hcur : l.currentIntensity = l.minIntensity) (hoff : l.currentState = State.off)
    (hdiff : ¬ wrap32 (l.currentIntensity - b) > l.minIntensity) :
    (l.decreaseIntensity b).2 = l := by
  obtain ⟨⟨id, st⟩, color, mx, mn, cur⟩ := l
  simp only at hcur hoff hdiff
  subst hcur hoff
  simp [decreaseIntensity, getCurrentState, Device.getCurrentState, hdiff]

end Light

/-- C17, as stated, fails: a new light after `increaseIntensity(100)` is at
intensity 100, and a following `increaseIntensity(2147483647)`, a non-negative
`int` amount, changes the intensity to -2147483549. -/
theorem saturated_counterexample :
    ((Light.new 0 "Blue").increaseIntensity 100).2.currentIntensity = 100 ∧
    (0 : Int) ≤ 100 ∧ (0 : Int) ≤ 2147483647 ∧ isInt32 2147483647 ∧
    ((((Light.new 0 "Blue").increaseIntensity 100).2.increaseIntensity
      2147483647).2.currentIntensity = -2147483549) ∧
    (((Light.new 0 "Blue").increaseIntensity 100).2.increaseIntensity 2147483647).2 ≠
      ((Light.new 0 "Blue").increaseIntensity 100).2 := by
  decide

/-- C17 (amended): for a light with bounds 0 and 100 and a non-negative `int`
amount `b`: if `increaseIntensity(a)` leaves the intensity at 100 and `100 + b`
does not exceed the largest `int`, a following `increaseIntensity(b)` changes
nothing of the light; if `decreaseIntensity(a)` leaves the intensity at 0, a
following `decreaseIntensity(b)` changes nothing of the light. -/
theorem saturated_noop (l : Light) (a b : Int)
    (hmax : l.maxIntensity = 100) (hmin : l.minIntensity = 0)
    (hb : 0 ≤ b) (hbint : b ≤ 2147483647) :
    ((l.increaseIntensity a).2.currentIntensity = 100 → 100 + b ≤ 2147483647 →
      ((l.increaseIntensity a).2.increaseIntensity b).2 = (l.increaseIntensity a).2) ∧
    ((l.decreaseIntensity a).2.currentIntensity = 0 →
      ((l.decreaseIntensity a).2.decreaseIntensity b).2 = (l.decreaseIntensity a).2) := by
  constructor
  · intro h100 hsum
    have hm : (l.increaseIntensity a).2.maxIntensity = 100 := by
      rw [(l.increaseIntensity_bounds a).1, hmax]
    apply Light.increaseIntensity_noop
    · rw [h100, hm]
    · exact l.increaseIntensity_currentState a
    · rw [h100, hm, wrap32_of_isInt32 _ ⟨by omega, hsum⟩]
      omega
  · intro h0
    have hm : (l.decreaseIntensity a).2.minIntensity = 0 := by
      rw [(l.decreaseIntensity_bounds a).2.1, hmin]
    apply Light.decreaseIntensity_noop
    · rw [h0, hm]
    · rw [Light.decreaseIntensity_currentState, h0, hmin]
      cases hs : l.currentState <;> simp
    · rw [h0, hm, wrap32_of_isInt32 _ ⟨by omega, by omega⟩]
      omega

theorem saturated_noop_witness :
    ((fullLight.increaseIntensity 100).2.currentIntensity = 100 →
      (100 : Int) + 2147483547 ≤ 2147483647 →
      ((fullLight.increaseIntensity 100).2.increaseIntensity 2147483547).2 =
        (fullLight.increaseIntensity 100).2) ∧
    ((fullLight.decreaseIntensity 100).2.currentIntensity = 0 →
      ((fullLight.decreaseIntensity 100).2.decreaseIntensity 2147483547).2 =
        (fullLight.decreaseIntensity 100).2) :=
  saturated_noop fullLight 100 2147483547 (by decide) (by decide) (by decide) (by decide)

/-! ## Registering a label twice -/

/-- C18, as stated, fails: on the panel in which `"A"` is registered to the
button at address 0, after `addButton("A", b2)` with `b2` the button at address
1, `getButton("A")` still returns the button at address 0, not `b2`; the label
list holds `"A"` twice. -/
theorem reregister_counterexample :
    StdMap.find? (({} : ControlPanel).addButton "A" (some 0)).2.Layout "A" = some (some 0) ∧
    ((some 1 : Ptr) ≠ some 0) ∧
    ((((({} : ControlPanel).addButton "A" (some 0)).2.addButton "A" (some 1)).2.getButton
      "A").1 = some 0) ∧
    ((((({} : ControlPanel).addButton "A" (some 0)).2.addButton "A" (some 1)).2.getButton
      "A").1 ≠ some 1) ∧
    ((({} : ControlPanel).addButton "A" (some 0)).2.addButton "A" (some 1)).2.getLabels =
      ["A", "A"] := by
  decide

/-- C18 (amended): re-registering a label keeps the first mapping.  For every
panel in which `label` is registered to `b1`, after `addButton(label, b2)` the
mapping is as before and `getButton(label)` still returns `b1`, while
`getLabels()` gains one more occurrence of `label`, at its end. -/
theorem reregister_keeps_first (p : ControlPanel) (label : String) (b1 b2 : Ptr)
    (h : StdMap.find? p.Layout label = some b1) :
    (p.addButton label b2).1 = label ∧
    (p.addButton label b2).2.Layout = p.Layout ∧
    ((p.addButton label b2).2.getButton label).1 = b1 ∧
    (p.addButton label b2).2.getLabels = p.getLabels ++ [label] ∧
    (p.addButton label b2).2.getLabels.count label = p.getLabels.count label + 1 := by
  have hL : (p.addButton label b2).2.Layout = p.Layout := by
    simp only [ControlPanel.addButton, StdMap.insert, h]
  refine ⟨rfl, hL, ?_, rfl, ?_⟩
  · simp only [ControlPanel.getButton, StdMap.index, hL, h]
  · simp [ControlPanel.addButton, ControlPanel.getLabels]

theorem reregister_keeps_first_witness :
    ((({} : ControlPanel).addButton "A" (some 0)).2.addButton "A" (some 1)).1 = "A" ∧
    ((({} : ControlPanel).addButton "A" (some 0)).2.addButton "A" (some 1)).2.Layout =
      (({} : ControlPanel).addButton "A" (some 0)).2.Layout ∧
    (((({} : ControlPanel).addButton "A" (some 0)).2.addButton "A" (some 1)).2.getButton
      "A").1 = some 0 ∧
    ((({} : ControlPanel).addButton "A" (some 0)).2.addButton "A" (some 1)).2.getLabels =
      (({} : ControlPanel).addButton "A" (some 0)).2.getLabels ++ ["A"] ∧
    ((({} : ControlPanel).addButton "A" (some 0)).2.addButton "A"
        (some 1)).2.getLabels.count "A" =
      (({} : ControlPanel).addButton "A" (some 0)).2.getLabels.count "A" + 1 :=
  reregister_keeps_first (({} : ControlPanel).addButton "A" (some 0)).2 "A" (some 0)
    (some 1) (by decide)

/-! ## What `toggle` leaves alone -/

/-- No call on a `Light` changes its id. -/
theorem Light.run_id (cs : List LightCall) : ∀ l : Light, (l.run cs).id = l.id := by
  induction cs with
  | nil => intro l; rfl
  | cons c cs ih =>
    intro l
    show ((l.call c).run cs).id = l.id
    rw [ih]
    cases c with
    | toggle => exact l.toggle_fields.2.2.2
    | increaseIntensity a => exact (l.increaseIntensity_bounds a).2.2
    | decreaseIntensity a => exact (l.decreaseIntensity_bounds a).2.2

/-- C20: `toggle()` changes only the on/off state: the intensity, the id, the
bounds and the colour of a `Light` are the same after it; so it leaves a new
light on at intensity 0 and a light at intensity 100 off.  No operation of
`Device` or `Light` changes the id: not `toggle`, `increaseIntensity` or
`decreaseIntensity`, hence no sequence of them on a constructed light. -/
theorem toggle_changes_only_state (l : Light) (d : Device) (a : Int) (i : Int)
    (color : String) (cs : List LightCall) :
    (l.toggle).2.currentIntensity = l.currentIntensity ∧
    (l.toggle).2.id = l.id ∧
    (l.toggle).2.maxIntensity = l.maxIntensity ∧
    (l.toggle).2.minIntensity = l.minIntensity ∧
    (l.toggle).2.color = l.color ∧
    (l.toggle).2.getId = l.getId ∧
    (d.toggle).2.id = d.id ∧
    (l.increaseIntensity a).2.id = l.id ∧
    (l.decreaseIntensity a).2.id = l.id ∧
    ((Light.new i color).run cs).id = i ∧
    (((Light.new i color).toggle).2.currentState = State.on ∧
      ((Light.new i color).toggle).2.currentIntensity = 0) ∧
    ((fullLight.toggle).2.currentState = State.off ∧
      (fullLight.toggle).2.currentIntensity = 100) := by
  have ht := l.toggle_fields
  refine ⟨ht.1, ht.2.2.2, ht.2.1, ht.2.2.1, rfl, ht.2.2.2, ?_,
    (l.increaseIntensity_bounds a).2.2, (l.decreaseIntensity_bounds a).2.2,
    Light.run_id cs (Light.new i color), ⟨rfl, rfl⟩, by decide⟩
  simp only [Device.toggle]
  split_ifs <;> rfl

end ControlPanelSim
